import Mathlib

/-!
# Verification of the drone_mobile client library

A shallow embedding of the `drone_mobile` Python library
(`drone_mobile/auth.py`, `drone_mobile/client.py`, `drone_mobile/models.py`,
`drone_mobile/const.py`) together with proofs about the behaviour its
specification describes.

Modelling conventions:
* Instants (`datetime`) are seconds since the epoch, as `Int`;
  `datetime.now()` becomes an explicit `now : Int` parameter.
* `datetime.isoformat` / `datetime.fromisoformat` are modelled by an
  injective decimal rendering of the instant and its partial inverse.
  Mirroring CPython 3.10 (the version the code's
  `timestamp.replace("Z", "+00:00")` normalisation targets), the parser
  accepts an optional explicit "+00:00" UTC suffix but rejects a trailing
  "Z"; every other string is unparsable and raises `ValueError`.
* Python dictionaries read by the parsers are modelled as records of
  `Option` fields (present / absent keys); numeric JSON values are
  modelled as integers, since the library performs no arithmetic on them.
* `requests` responses are scripted: each operation consumes responses
  from an explicit list, and an exhausted script behaves as a transport
  failure.  Exceptions become `Except` values.
* The filesystem visible to the token store (primary token file, legacy
  token file) is an explicit record threaded through the functions.
-/

deriving instance DecidableEq for Except

namespace DroneMobile

/-- An instant, modelled as seconds since the epoch. -/
abbrev DateTime := Int

/-- Python exceptions that the library's own `except` clauses distinguish. -/
inductive PyExn where
  | keyError (key : String)
  | valueError (msg : String)
  | typeError (msg : String)
  deriving DecidableEq, Repr

/-! ## Decimal rendering of instants (model of `isoformat`/`fromisoformat`) -/

/-- The character for a single decimal digit. -/
def digitChar (d : Nat) : Char :=
  match d with
  | 0 => '0' | 1 => '1' | 2 => '2' | 3 => '3' | 4 => '4'
  | 5 => '5' | 6 => '6' | 7 => '7' | 8 => '8' | _ => '9'

/-- The value of a decimal digit character, if it is one. -/
def charDigit (c : Char) : Option Nat :=
  if '0' ≤ c ∧ c ≤ '9' then some (c.toNat - 48) else none

/-- Big-endian decimal digits of a natural number (`[0]` for zero). -/
def natDigitsBE (n : Nat) : List Nat :=
  if n = 0 then [0] else (Nat.digits 10 n).reverse

/-- Decimal numeral of a natural number, as characters. -/
def printNatChars (n : Nat) : List Char :=
  (natDigitsBE n).map digitChar

/-- One decimal-accumulation step: `acc * 10 +` the digit, failing on a
    non-digit character. -/
def digitStep (acc : Option Nat) (c : Char) : Option Nat :=
  match acc, charDigit c with
  | some a, some d => some (a * 10 + d)
  | _, _ => none

/-- Value of a big-endian digit-character list; `none` on a non-digit or
    on the empty list. -/
def parseDigits : List Char → Option Nat
  | [] => none
  | c :: cs => (c :: cs).foldl digitStep (some 0)

/-- Model of `datetime.isoformat`: an injective textual rendering of the
    instant (decimal seconds-since-epoch, with a sign for negatives). -/
def DateTime.isoformat (d : DateTime) : String :=
  if d < 0 then ⟨'-' :: printNatChars d.natAbs⟩ else ⟨printNatChars d.toNat⟩

/-- Drops a trailing explicit "+00:00" UTC offset, if present. -/
def stripUtcSuffix (cs : List Char) : List Char :=
  if cs.drop (cs.length - 6) = ['+', '0', '0', ':', '0', '0'] ∧ 6 ≤ cs.length
  then cs.take (cs.length - 6) else cs

/-- Model of `datetime.fromisoformat` (CPython 3.10 semantics): parses the
    rendering produced by `isoformat`, optionally followed by an explicit
    "+00:00" UTC offset; a trailing "Z" (or any other malformation) fails. -/
def DateTime.fromisoformat (s : String) : Option DateTime :=
  match stripUtcSuffix s.data with
  | [] => none
  | c :: rest =>
    if c = '-' then (parseDigits rest).map (fun n => -(n : Int))
    else (parseDigits (c :: rest)).map (fun n => (n : Int))

/-- Model of Python `str.replace("Z", "+00:00")` (single-character needle). -/
def replaceZ (s : String) : String :=
  ⟨s.data.foldr
    (fun c acc =>
      if c = 'Z' then '+' :: '0' :: '0' :: ':' :: '0' :: '0' :: acc
      else c :: acc)
    []⟩

/-- Python `a or b` on optional strings (`None` and `""` are falsy). -/
def pyOrStr (a b : Option String) : Option String :=
  match a with
  | some s => if s = "" then b else some s
  | none => b

/-- Python truthiness of an optional string (`if timestamp_str:`). -/
def truthyStr (a : Option String) : Bool :=
  match a with
  | some s => s ≠ ""
  | none => false

/-- Python truthiness of an optional integer (`if data.get("year"):`). -/
def truthyInt (v : Option Int) : Bool :=
  match v with
  | some n => n ≠ 0
  | none => false

/-- `data.get(k1, data.get(k2))`: first present key wins. -/
def getOrKey (a b : Option α) : Option α :=
  match a with
  | some x => some x
  | none => b

/-- `data[k]` on an optional field: `KeyError` when the key is absent. -/
def getKey (k : String) (v : Option α) : Except PyExn α :=
  match v with
  | some x => .ok x
  | none => .error (.keyError k)

/-! ## const.py -/

/-- `AVAILABLE_COMMANDS` (`const.py` lines 30-42). -/
def AVAILABLE_COMMANDS : List String :=
  ["DEVICE_STATUS", "REMOTE_START", "REMOTE_STOP", "ARM", "DISARM",
   "TRUNK", "PANIC_ON", "PANIC_OFF", "REMOTE_AUX1", "REMOTE_AUX2", "LOCATION"]

/-- `TOKEN_EXPIRY_MARGIN` (`const.py`): seconds subtracted from the
    provider-reported expiry. -/
def TOKEN_EXPIRY_MARGIN : Int := 100

/-! ## models.py -/

/-- `AuthToken` (`models.py`). -/
structure AuthToken where
  access_token : String
  id_token : String
  refresh_token : String
  token_type : String
  expires_at : DateTime
  deriving DecidableEq, Repr

/-- `AuthToken.is_expired`: `datetime.now() >= self.expires_at`. -/
def AuthToken.is_expired (t : AuthToken) (now : DateTime) : Bool :=
  t.expires_at ≤ now

/-- A JSON value found under a token-file key: a string, or some other
    (non-string) JSON value — the latter matters only where the code would
    pass it to `fromisoformat`, which then raises `TypeError`. -/
inductive PVal where
  | str (s : String)
  | nonStr
  deriving DecidableEq, Repr

/-- The dictionary stored in the primary token file (result of `json.load`);
    each key may be absent. -/
structure TokenDict where
  access_token : Option String
  id_token : Option String
  refresh_token : Option String
  token_type : Option String
  expires_at : Option PVal
  deriving DecidableEq, Repr

/-- `AuthToken.to_dict` (`models.py` lines 172-180). -/
def AuthToken.to_dict (t : AuthToken) : TokenDict :=
  { access_token := some t.access_token
    id_token := some t.id_token
    refresh_token := some t.refresh_token
    token_type := some t.token_type
    expires_at := some (.str t.expires_at.isoformat) }

/-- `AuthToken.from_dict` (`models.py` lines 182-191): direct `data[...]`
    indexing (`KeyError` when absent), `fromisoformat` on the stored
    expiry (`ValueError` when unparsable, `TypeError` when not a string). -/
def AuthToken.from_dict (d : TokenDict) : Except PyExn AuthToken := do
  let a ← getKey "access_token" d.access_token
  let i ← getKey "id_token" d.id_token
  let r ← getKey "refresh_token" d.refresh_token
  let ty ← getKey "token_type" d.token_type
  let e ← getKey "expires_at" d.expires_at
  match e with
  | .nonStr => .error (.typeError "fromisoformat: argument must be str")
  | .str s =>
    match DateTime.fromisoformat s with
    | some dt =>
      .ok { access_token := a, id_token := i, refresh_token := r,
            token_type := ty, expires_at := dt }
    | none => .error (.valueError "Invalid isoformat string")

/-- Payload read by `Location.from_dict` (presence/absence of each key). -/
structure LocationPayload where
  latitude : Option Int
  longitude : Option Int
  timestamp : Option String
  accuracy : Option Int
  deriving DecidableEq, Repr

/-- `Location` (`models.py`). -/
structure Location where
  latitude : Int
  longitude : Int
  timestamp : Option DateTime
  accuracy : Option Int
  deriving DecidableEq, Repr

/-- `Location.from_dict` (`models.py` lines 17-25).  Absent
    `latitude`/`longitude` default to `0` (`data.get("latitude", 0)`);
    the timestamp parse has no `try` and no "Z" normalisation, so an
    unparsable timestamp raises `ValueError`. -/
def Location.from_dict (d : LocationPayload) : Except PyExn Location := do
  let ts ←
    match d.timestamp with
    | none => pure (none : Option DateTime)
    | some s =>
      match DateTime.fromisoformat s with
      | some dt => pure (some dt)
      | none => Except.error (PyExn.valueError "Invalid isoformat string")
  .ok { latitude := d.latitude.getD 0
        longitude := d.longitude.getD 0
        timestamp := ts
        accuracy := d.accuracy }

/-- The `controller` sub-object of `last_known_state`. -/
structure ControllerPayload where
  engine_on : Option Bool
  armed : Option Bool
  main_battery_voltage : Option Int
  current_temperature : Option Int
  deriving DecidableEq, Repr

/-- `lks.get(..., {})` default. -/
def ControllerPayload.empty : ControllerPayload := ⟨none, none, none, none⟩

/-- The `last_known_state` sub-object of a vehicle-status payload. -/
structure LksPayload where
  controller : Option ControllerPayload
  latitude : Option Int
  longitude : Option Int
  mileage : Option Int
  timestamp : Option String
  deriving DecidableEq, Repr

/-- `data.get("last_known_state", {})` default. -/
def LksPayload.empty : LksPayload := ⟨none, none, none, none, none⟩

/-- Payload read by `VehicleStatus.from_dict`. -/
structure VehicleStatusPayload where
  id : Option String
  vehicle_id : Option String
  device_key : Option String
  last_known_state : Option LksPayload
  location : Option LocationPayload
  last_updated : Option String
  deriving DecidableEq, Repr

/-- `VehicleStatus` (`models.py`). -/
structure VehicleStatus where
  vehicle_id : String
  device_key : String
  is_running : Bool
  is_locked : Bool
  battery_voltage : Option Int
  battery_percent : Option Int
  odometer : Option Int
  fuel_level : Option Int
  interior_temperature : Option Int
  exterior_temperature : Option Int
  location : Option Location
  last_updated : Option DateTime
  raw_data : VehicleStatusPayload
  deriving DecidableEq, Repr

/-- `VehicleStatus.from_dict` (`models.py` lines 46-88).  The own
    `last_updated` parse is wrapped in `try/except` with "Z" normalised to
    "+00:00" first; a nested `location` payload is parsed by
    `Location.from_dict`, whose errors propagate. -/
def VehicleStatus.from_dict (d : VehicleStatusPayload) :
    Except PyExn VehicleStatus := do
  let lks := d.last_known_state.getD LksPayload.empty
  let controller := lks.controller.getD ControllerPayload.empty
  let location ←
    match lks.latitude, lks.longitude with
    | some la, some lo =>
      pure (some { latitude := la, longitude := lo,
                   timestamp := none, accuracy := none : Location })
    | _, _ =>
      match d.location with
      | some lp => (Location.from_dict lp).map some
      | none => pure (none : Option Location)
  let timestamp_str := pyOrStr lks.timestamp d.last_updated
  let last_updated :=
    if truthyStr timestamp_str then
      DateTime.fromisoformat (replaceZ (timestamp_str.getD ""))
    else none
  .ok { vehicle_id := (getOrKey d.id d.vehicle_id).getD ""
        device_key := d.device_key.getD ""
        is_running := controller.engine_on.getD false
        is_locked := controller.armed.getD false
        battery_voltage := controller.main_battery_voltage
        battery_percent := none
        odometer := lks.mileage
        fuel_level := none
        interior_temperature := controller.current_temperature
        exterior_temperature := none
        location := location
        last_updated := last_updated
        raw_data := d }

/-- Payload read by `VehicleInfo.from_dict`. -/
structure VehicleInfoPayload where
  id : Option String
  vehicle_id : Option String
  device_key : Option String
  vehicle_name : Option String
  name : Option String
  vehicle_make : Option String
  make : Option String
  vehicle_model : Option String
  model : Option String
  vehicle_year : Option Int
  year : Option Int
  color : Option String
  vin : Option String
  deriving DecidableEq, Repr

/-- `VehicleInfo` (`models.py`). -/
structure VehicleInfo where
  vehicle_id : String
  device_key : String
  name : String
  make : Option String
  model : Option String
  year : Option Int
  color : Option String
  vin : Option String
  raw_data : VehicleInfoPayload
  deriving DecidableEq, Repr

/-- `VehicleInfo.from_dict` (`models.py` lines 105-124): two candidate key
    names per field, first present wins; year uses Python truthiness
    (`0` falls through). -/
def VehicleInfo.from_dict (d : VehicleInfoPayload) : VehicleInfo :=
  { vehicle_id := (getOrKey d.id d.vehicle_id).getD ""
    device_key := d.device_key.getD ""
    name := (getOrKey d.vehicle_name d.name).getD "Unknown Vehicle"
    make := getOrKey d.vehicle_make d.make
    model := getOrKey d.vehicle_model d.model
    year :=
      if truthyInt d.vehicle_year then d.vehicle_year
      else if truthyInt d.year then d.year
      else none
    color := d.color
    vin := d.vin
    raw_data := d }

/-- Payload read by `CommandResponse.from_dict` (the `parsed` object). -/
structure CommandPayload where
  success : Option Bool
  message : Option String
  timestamp : Option String
  detail : Option String
  deriving DecidableEq, Repr

/-- `data.get("parsed", {})` default. -/
def CommandPayload.empty : CommandPayload := ⟨none, none, none, none⟩

/-- `CommandResponse` (`models.py`). -/
structure CommandResponse where
  success : Bool
  message : String
  command : String
  device_key : String
  timestamp : Option DateTime
  raw_data : CommandPayload
  deriving DecidableEq, Repr

/-- `CommandResponse.from_dict` (`models.py` lines 138-155): the timestamp
    parse is wrapped in `try/except` (failure becomes `None`) and performs
    no "Z" normalisation. -/
def CommandResponse.from_dict (d : CommandPayload) (command device_key : String) :
    CommandResponse :=
  { success := d.success.getD false
    message := d.message.getD ""
    command := command
    device_key := device_key
    timestamp :=
      match d.timestamp with
      | some s => DateTime.fromisoformat s
      | none => none
    raw_data := d }

/-! ## auth.py -/

/-- The `AuthenticationResult` object of a provider 200 response. -/
structure AuthResultDict where
  AccessToken : Option String
  IdToken : Option String
  RefreshToken : Option String
  TokenType : Option String
  ExpiresIn : Option Int
  deriving DecidableEq, Repr

/-- One scripted response of the identity provider (a `requests.post` to
    `URLS["auth"]`). -/
inductive ProviderResp where
  /-- HTTP 200; carries the body's `AuthenticationResult` key if present. -/
  | success (ar : Option AuthResultDict)
  /-- A non-200 status, with the JSON error body's `__type` and `message`
      keys and the raw body text. -/
  | httpError (status : Nat) (errType : String) (message : Option String)
      (text : String)
  /-- `requests.exceptions.RequestException`. -/
  | netFail (msg : String)
  deriving DecidableEq, Repr

/-- Errors raised by `auth.py`: the library's taxonomy (`exceptions.py`)
    plus raw Python exceptions that escape (e.g. `KeyError` while parsing
    a response). -/
inductive AuthErr where
  | invalidCredentials (msg : String)
  | authenticationError (msg : String)
  | tokenExpired (msg : String)
  | networkError (msg : String)
  | pyExn (e : PyExn)
  deriving DecidableEq, Repr

/-- Contents of the primary token file. -/
inductive PrimaryFile where
  | jsonFile (d : TokenDict)
  /-- unparsable JSON (`json.JSONDecodeError`). -/
  | corrupt
  deriving DecidableEq, Repr

/-- Value under the legacy file's `expiry_time` / `expiry_date` keys. -/
inductive LVal where
  /-- an `int` or `float` epoch value. -/
  | num (e : Int)
  /-- any other JSON value. -/
  | nonNum
  deriving DecidableEq, Repr

/-- The legacy file's `AuthenticationResult` sub-object. -/
structure LegacyAuthResult where
  AccessToken : Option String
  IdToken : Option String
  RefreshToken : Option String
  TokenType : Option String
  deriving DecidableEq, Repr

/-- `data.get("AuthenticationResult", {})` default. -/
def LegacyAuthResult.empty : LegacyAuthResult := ⟨none, none, none, none⟩

/-- The dictionary stored in the legacy token file. -/
structure LegacyDict where
  AuthenticationResult : Option LegacyAuthResult
  expiry_time : Option LVal
  expiry_date : Option LVal
  deriving DecidableEq, Repr

/-- Contents of the legacy token file. -/
inductive LegacyFile where
  | jsonFile (d : LegacyDict)
  | corrupt
  deriving DecidableEq, Repr

/-- The filesystem seen by the token store: primary and legacy file. -/
structure FS where
  primary : Option PrimaryFile
  legacy : Option LegacyFile
  deriving DecidableEq, Repr

/-- `datetime.fromtimestamp` on an epoch number: the same instant. -/
def fromtimestamp (e : Int) : DateTime := e

/-- `AuthenticationManager._migrate_legacy_token` (`auth.py` lines
    294-328).  All token fields are read with `.get` defaults, so the
    `except (KeyError, ValueError)` clause is unreachable; a `TypeError`
    from `fromtimestamp` on a non-numeric `expiry_time` is not in that
    clause and escapes. -/
def migrate_legacy_token (d : LegacyDict) (now : DateTime) :
    Except PyExn (Option AuthToken) := do
  let auth_result := d.AuthenticationResult.getD LegacyAuthResult.empty
  let expires_at ←
    match d.expiry_time with
    | some (.num e) => pure (fromtimestamp e)
    | some .nonNum => Except.error (PyExn.typeError "an integer is required")
    | none =>
      match d.expiry_date with
      | some (.num e) => pure (fromtimestamp e)
      | some .nonNum => pure now
      | none => pure now
  .ok (some { access_token := auth_result.AccessToken.getD ""
              id_token := auth_result.IdToken.getD ""
              refresh_token := auth_result.RefreshToken.getD ""
              token_type := auth_result.TokenType.getD "Bearer"
              expires_at := expires_at })

/-- Effect of `AuthenticationManager._save_token` (`auth.py` lines
    235-257): under the file lock, write a full replacement of the primary
    record; on `filelock.Timeout` the save is abandoned and logged, and no
    exception is raised.  `lockOk` says whether the lock can be acquired
    within the bounded timeout.  Returns the filesystem afterwards and
    whether a save failure was logged. -/
def save_token (t : AuthToken) (lockOk : Bool) (fs : FS) : FS × Bool :=
  if lockOk then ({ fs with primary := some (.jsonFile t.to_dict) }, false)
  else (fs, true)

/-- Result of `_load_token`: the returned value (or escaping exception),
    the filesystem afterwards, and the number of save-failure log lines. -/
structure LoadResult where
  result : Except PyExn (Option AuthToken)
  fs : FS
  saveFailLogs : Nat
  deriving DecidableEq, Repr

/-- `AuthenticationManager._load_token` (`auth.py` lines 259-292).
    Primary-file failures in `(JSONDecodeError, KeyError, ValueError)`
    yield `None`; a `TypeError` (wrongly-typed `expires_at`) escapes.  The
    legacy branch catches every exception; on success it saves the
    converted token and deletes the legacy file. -/
def load_token (fs : FS) (now : DateTime) (lockOk : Bool) : LoadResult :=
  match fs.primary with
  | some (.jsonFile d) =>
    match AuthToken.from_dict d with
    | .ok t => ⟨.ok (some t), fs, 0⟩
    | .error (.typeError m) => ⟨.error (.typeError m), fs, 0⟩
    | .error _ => ⟨.ok none, fs, 0⟩
  | some .corrupt => ⟨.ok none, fs, 0⟩
  | none =>
    match fs.legacy with
    | some (.jsonFile d) =>
      match migrate_legacy_token d now with
      | .ok (some t) =>
        let (fs', logged) := save_token t lockOk fs
        ⟨.ok (some t), { fs' with legacy := none }, if logged then 1 else 0⟩
      | .ok none => ⟨.ok none, fs, 0⟩
      | .error _ => ⟨.ok none, fs, 0⟩
    | some .corrupt => ⟨.ok none, fs, 0⟩
    | none => ⟨.ok none, fs, 0⟩

/-- `AuthenticationManager._parse_auth_response` (`auth.py` lines 213-233):
    `expires_at = now + ExpiresIn - TOKEN_EXPIRY_MARGIN`; missing keys
    raise `KeyError`. -/
def parse_auth_response (ar : Option AuthResultDict) (now : DateTime) :
    Except PyExn AuthToken := do
  let a ← getKey "AuthenticationResult" ar
  let expires_in ← getKey "ExpiresIn" a.ExpiresIn
  let access ← getKey "AccessToken" a.AccessToken
  let idt ← getKey "IdToken" a.IdToken
  let refresh ← getKey "RefreshToken" a.RefreshToken
  let ty ← getKey "TokenType" a.TokenType
  .ok { access_token := access, id_token := idt, refresh_token := refresh,
        token_type := ty,
        expires_at := now + expires_in - TOKEN_EXPIRY_MARGIN }

/-- In-memory manager state: `self._token` and the visible filesystem. -/
structure MgrState where
  token : Option AuthToken
  fs : FS
  deriving DecidableEq, Repr

/-- Which grant a provider POST carried. -/
inductive Grant where
  /-- `USER_PASSWORD_AUTH` -/
  | password
  /-- `REFRESH_TOKEN_AUTH` -/
  | refresh
  deriving DecidableEq, Repr

/-- Outcome of an `auth.py` entry point: result, new state, remaining
    provider script, provider POSTs made (in order), and count of logged
    save failures. -/
structure AuthRun where
  result : Except AuthErr AuthToken
  state : MgrState
  script : List ProviderResp
  grants : List Grant
  saveFailLogs : Nat
  deriving DecidableEq, Repr

/-- Python `needle in haystack` on strings. -/
def strContains (needle hay : String) : Bool :=
  hay.data.tails.any (fun t => needle.data.isPrefixOf t)

/-- `AuthenticationManager._authenticate_new` (`auth.py` lines 103-156):
    one password-grant POST; 200 parses, saves and returns; 400 with
    `NotAuthorizedException` in `__type` raises `InvalidCredentialsError`,
    other 400s and other statuses raise `AuthenticationError`.  An empty
    script behaves as a transport failure. -/
def authenticate_new (st : MgrState) (script : List ProviderResp)
    (now : DateTime) (lockOk : Bool) : AuthRun :=
  match script with
  | [] =>
    ⟨.error (.networkError "Network error during authentication"),
     st, [], [.password], 0⟩
  | r :: rest =>
    match r with
    | .netFail m =>
      ⟨.error (.networkError ("Network error during authentication: " ++ m)),
       st, rest, [.password], 0⟩
    | .success ar =>
      match parse_auth_response ar now with
      | .ok tok =>
        let (fs', logged) := save_token tok lockOk st.fs
        ⟨.ok tok, ⟨some tok, fs'⟩, rest, [.password],
         if logged then 1 else 0⟩
      | .error e => ⟨.error (.pyExn e), st, rest, [.password], 0⟩
    | .httpError status errType message text =>
      if status = 400 then
        if strContains "NotAuthorizedException" errType then
          ⟨.error (.invalidCredentials "Invalid username or password"),
           st, rest, [.password], 0⟩
        else
          ⟨.error (.authenticationError
             ("Authentication failed: " ++ message.getD "Unknown error")),
           st, rest, [.password], 0⟩
      else
        ⟨.error (.authenticationError
           ("Authentication failed with status: " ++ text)),
         st, rest, [.password], 0⟩

/-- `AuthenticationManager._refresh_token` (`auth.py` lines 158-211): with
    no token or an empty (falsy) refresh token, `TokenExpiredError`; a 200
    missing `RefreshToken` carries the previous refresh token forward; a
    400 or 401 triggers exactly one full `_authenticate_new`; any other
    status raises `AuthenticationError`. -/
def refresh_token (st : MgrState) (script : List ProviderResp)
    (now : DateTime) (lockOk : Bool) : AuthRun :=
  match st.token with
  | none => ⟨.error (.tokenExpired "No refresh token available"), st, script, [], 0⟩
  | some tok =>
    if tok.refresh_token = "" then
      ⟨.error (.tokenExpired "No refresh token available"), st, script, [], 0⟩
    else
      match script with
      | [] =>
        ⟨.error (.networkError "Network error during token refresh"),
         st, [], [.refresh], 0⟩
      | r :: rest =>
        match r with
        | .netFail m =>
          ⟨.error (.networkError ("Network error during token refresh: " ++ m)),
           st, rest, [.refresh], 0⟩
        | .success ar =>
          match ar with
          | none =>
            ⟨.error (.pyExn (.keyError "AuthenticationResult")),
             st, rest, [.refresh], 0⟩
          | some a =>
            let a2 :=
              if a.RefreshToken = none
              then { a with RefreshToken := some tok.refresh_token } else a
            match parse_auth_response (some a2) now with
            | .ok newTok =>
              let (fs', logged) := save_token newTok lockOk st.fs
              ⟨.ok newTok, ⟨some newTok, fs'⟩, rest, [.refresh],
               if logged then 1 else 0⟩
            | .error e => ⟨.error (.pyExn e), st, rest, [.refresh], 0⟩
        | .httpError status _ _ text =>
          if status = 400 ∨ status = 401 then
            let inner := authenticate_new st rest now lockOk
            { inner with grants := .refresh :: inner.grants }
          else
            ⟨.error (.authenticationError
               ("Token refresh failed with status: " ++ text)),
             st, rest, [.refresh], 0⟩

/-- The `if not force_refresh: try: ... except Exception:` block of
    `authenticate` (`auth.py` lines 88-101): load, return if valid,
    refresh if expired; every exception from load or refresh is caught and
    falls through to `_authenticate_new`. -/
def authenticate_load_phase (st : MgrState) (script : List ProviderResp)
    (now : DateTime) (lockOk : Bool) : AuthRun :=
  let lr := load_token st.fs now lockOk
  match lr.result with
  | .error _ =>
    let inner := authenticate_new { st with fs := lr.fs } script now lockOk
    { inner with saveFailLogs := lr.saveFailLogs + inner.saveFailLogs }
  | .ok loaded =>
    let st2 : MgrState := ⟨loaded, lr.fs⟩
    match loaded with
    | some t =>
      if !(t.is_expired now) then
        ⟨.ok t, st2, script, [], lr.saveFailLogs⟩
      else
        let r := refresh_token st2 script now lockOk
        match r.result with
        | .ok _ => { r with saveFailLogs := lr.saveFailLogs + r.saveFailLogs }
        | .error _ =>
          let inner := authenticate_new r.state r.script now lockOk
          ⟨inner.result, inner.state, inner.script, r.grants ++ inner.grants,
           lr.saveFailLogs + r.saveFailLogs + inner.saveFailLogs⟩
    | none =>
      let inner := authenticate_new st2 script now lockOk
      { inner with saveFailLogs := lr.saveFailLogs + inner.saveFailLogs }

/-- `AuthenticationManager.authenticate` (`auth.py` lines 68-101). -/
def authenticate (st : MgrState) (force_refresh : Bool)
    (script : List ProviderResp) (now : DateTime) (lockOk : Bool) : AuthRun :=
  if force_refresh then authenticate_new st script now lockOk
  else
    match st.token with
    | some t =>
      if !(t.is_expired now) then ⟨.ok t, st, script, [], 0⟩
      else authenticate_load_phase st script now lockOk
    | none => authenticate_load_phase st script now lockOk

/-- `AuthenticationManager.invalidate_token` (`auth.py` lines 346-352):
    clears the in-memory token and unlinks the primary token file.  The
    legacy file is not touched. -/
def invalidate_token (st : MgrState) : MgrState :=
  ⟨none, { st.fs with primary := none }⟩

/-! ## client.py

Each operation is a function over a scripted list of API responses: one
response is consumed per HTTP round-trip, and an exhausted script behaves
as a transport failure (with no round-trip made).  The run records how
many HTTP calls were made and how many times the operation invoked
`self.auth.authenticate(force_refresh=True)`. -/

/-- Errors raised by `client.py` (`exceptions.py`), plus raw Python
    exceptions escaping from body parsing. -/
inductive ClientErr where
  | invalidCommand (msg : String)
  | commandFailed (detail : String)
  | rateLimit
  | apiError (status : Nat)
  | vehicleNotFound (vid : String)
  | networkError (msg : String)
  | pyExn (e : PyExn)
  deriving DecidableEq, Repr

/-- Outcome of one client operation. -/
structure ClientRun (α : Type) where
  result : Except ClientErr α
  httpCalls : Nat
  forcedRefreshes : Nat
  deriving DecidableEq, Repr

/-- A scripted response to the command POST. -/
inductive CmdResp where
  /-- HTTP 200; carries the body's `parsed` key if present. -/
  | ok (parsed : Option CommandPayload)
  /-- HTTP 424; carries the error body's `parsed.detail` if present. -/
  | failedDependency (detail : Option String)
  /-- any other status (401, 429, ...). -/
  | status (code : Nat)
  | netFail (msg : String)
  deriving DecidableEq, Repr

/-- `DroneMobileClient.send_command` (`client.py` lines 177-246): the
    command is validated against `AVAILABLE_COMMANDS` before anything
    else; a 401 forces a refresh and recurses on the rest of the script. -/
def send_command (device_key command : String) (script : List CmdResp) :
    ClientRun CommandResponse :=
  if command ∉ AVAILABLE_COMMANDS then
    ⟨.error (.invalidCommand ("Invalid command " ++ command)), 0, 0⟩
  else
    match script with
    | [] => ⟨.error (.networkError "Network error sending command"), 0, 0⟩
    | r :: rest =>
      match r with
      | .netFail m => ⟨.error (.networkError m), 1, 0⟩
      | .ok parsed =>
        ⟨.ok (CommandResponse.from_dict (parsed.getD CommandPayload.empty)
                command device_key), 1, 0⟩
      | .failedDependency detail =>
        ⟨.error (.commandFailed (detail.getD "Command failed")), 1, 0⟩
      | .status code =>
        if code = 401 then
          let inner := send_command device_key command rest
          ⟨inner.result, inner.httpCalls + 1, inner.forcedRefreshes + 1⟩
        else if code = 429 then ⟨.error .rateLimit, 1, 0⟩
        else ⟨.error (.apiError code), 1, 0⟩

/-- A scripted response to the vehicle-status GET. -/
inductive StatusResp where
  | ok (body : VehicleStatusPayload)
  | status (code : Nat)
  | netFail (msg : String)
  deriving DecidableEq, Repr

/-- `DroneMobileClient.get_vehicle_status` (`client.py` lines 131-175):
    200 parses the body, 401 forces a refresh and recurses, 404 is
    vehicle-not-found, 429 is rate-limit, anything else an API error. -/
def get_vehicle_status (vehicle_id : String) (script : List StatusResp) :
    ClientRun VehicleStatus :=
  match script with
  | [] => ⟨.error (.networkError "Network error fetching vehicle status"), 0, 0⟩
  | r :: rest =>
    match r with
    | .netFail m => ⟨.error (.networkError m), 1, 0⟩
    | .ok body =>
      match VehicleStatus.from_dict body with
      | .ok s => ⟨.ok s, 1, 0⟩
      | .error e => ⟨.error (.pyExn e), 1, 0⟩
    | .status code =>
      if code = 401 then
        let inner := get_vehicle_status vehicle_id rest
        ⟨inner.result, inner.httpCalls + 1, inner.forcedRefreshes + 1⟩
      else if code = 404 then ⟨.error (.vehicleNotFound vehicle_id), 1, 0⟩
      else if code = 429 then ⟨.error .rateLimit, 1, 0⟩
      else ⟨.error (.apiError code), 1, 0⟩

/-- A scripted response to the vehicle-list GET. -/
inductive VehiclesResp where
  /-- HTTP 200; carries the body's `results` key if present. -/
  | ok (results : Option (List VehicleInfoPayload))
  | status (code : Nat)
  | netFail (msg : String)
  deriving DecidableEq, Repr

/-- `DroneMobileClient.get_vehicles` (`client.py` lines 56-105): 200 maps
    `VehicleInfo.from_dict` over `results` (default `[]`), 401 forces a
    refresh and recurses, 429 is rate-limit, anything else an API error.
    (The in-memory vehicle registry is not modelled; no claim concerns
    it.) -/
def get_vehicles (script : List VehiclesResp) : ClientRun (List VehicleInfo) :=
  match script with
  | [] => ⟨.error (.networkError "Network error fetching vehicles"), 0, 0⟩
  | r :: rest =>
    match r with
    | .netFail m => ⟨.error (.networkError m), 1, 0⟩
    | .ok results => ⟨.ok ((results.getD []).map VehicleInfo.from_dict), 1, 0⟩
    | .status code =>
      if code = 401 then
        let inner := get_vehicles rest
        ⟨inner.result, inner.httpCalls + 1, inner.forcedRefreshes + 1⟩
      else if code = 429 then ⟨.error .rateLimit, 1, 0⟩
      else ⟨.error (.apiError code), 1, 0⟩

/-! ## Auxiliary lemmas: the decimal rendering round-trips -/

lemma charDigit_digitChar (d : Nat) (h : d < 10) :
    charDigit (digitChar d) = some d := by
  interval_cases d <;> rfl

lemma digitChar_ne_plus (d : Nat) : digitChar d ≠ '+' := by
  unfold digitChar; split <;> decide

lemma digitChar_ne_dash (d : Nat) : digitChar d ≠ '-' := by
  unfold digitChar; split <;> decide

lemma foldl_digitStep (l : List Nat) (a : Nat) (h : ∀ d ∈ l, d < 10) :
    (l.map digitChar).foldl digitStep (some a)
      = some (a * 10 ^ l.length + Nat.ofDigits 10 l.reverse) := by
  induction l generalizing a with
  | nil => simp [Nat.ofDigits]
  | cons d t ih =>
    have hd : d < 10 := h d (List.mem_cons_self d t)
    have ht : ∀ x ∈ t, x < 10 := fun x hx => h x (List.mem_cons_of_mem d hx)
    simp only [List.map_cons, List.foldl_cons, digitStep,
      charDigit_digitChar d hd]
    rw [ih (a * 10 + d) ht]
    congr 1
    rw [List.reverse_cons, Nat.ofDigits_append]
    simp only [List.length_cons, List.length_reverse, Nat.ofDigits,
      Nat.ofDigits_nil]
    push_cast
    ring

lemma printNatChars_ne_nil (n : Nat) : printNatChars n ≠ [] := by
  unfold printNatChars natDigitsBE
  split
  · decide
  · rename_i hn
    intro h
    have h2 : (Nat.digits 10 n).reverse = [] := by
      cases hrev : (Nat.digits 10 n).reverse with
      | nil => rfl
      | cons a l => rw [hrev] at h; simp at h
    have h3 : Nat.digits 10 n = [] := by
      cases hdig : Nat.digits 10 n with
      | nil => rfl
      | cons a l => rw [hdig] at h2; simp at h2
    exact hn (Nat.digits_eq_nil_iff_eq_zero.mp h3)

lemma parseDigits_printNatChars (n : Nat) :
    parseDigits (printNatChars n) = some n := by
  rcases Nat.eq_zero_or_pos n with h0 | hpos
  · subst h0; decide
  · have hne : (Nat.digits 10 n).reverse ≠ [] := by
      simp [Nat.digits_ne_nil_iff_ne_zero, Nat.pos_iff_ne_zero.mp hpos]
    obtain ⟨d, t, hdt⟩ := List.exists_cons_of_ne_nil hne
    have hlt : ∀ x ∈ d :: t, x < 10 := by
      intro x hx
      rw [← hdt] at hx
      exact Nat.digits_lt_base (by norm_num) (List.mem_reverse.mp hx)
    have hpr : printNatChars n = (d :: t).map digitChar := by
      unfold printNatChars natDigitsBE
      rw [if_neg (by omega), hdt]
    rw [hpr, List.map_cons]
    show (digitChar d :: List.map digitChar t).foldl digitStep (some 0) = some n
    rw [← List.map_cons, foldl_digitStep (d :: t) 0 hlt]
    rw [show (d :: t).reverse = Nat.digits 10 n from by
      rw [← hdt, List.reverse_reverse]]
    rw [Nat.ofDigits_digits]
    simp

lemma mem_printNatChars_ne_dash {c : Char} {n : Nat}
    (h : c ∈ printNatChars n) : c ≠ '-' := by
  unfold printNatChars at h
  obtain ⟨d, -, hd⟩ := List.mem_map.mp h
  rw [← hd]
  exact digitChar_ne_dash d

lemma plus_not_mem_printNatChars (n : Nat) : '+' ∉ printNatChars n := by
  intro h
  obtain ⟨d, -, hd⟩ := List.mem_map.mp (by unfold printNatChars at h; exact h)
  exact digitChar_ne_plus d hd

lemma stripUtcSuffix_eq_self {cs : List Char} (h : '+' ∉ cs) :
    stripUtcSuffix cs = cs := by
  unfold stripUtcSuffix
  rw [if_neg]
  rintro ⟨hdrop, -⟩
  apply h
  apply List.drop_subset (cs.length - 6) cs
  rw [hdrop]
  simp

/-- The decimal rendering of an instant parses back to the instant: the
    model's `fromisoformat` inverts `isoformat`. -/
theorem fromisoformat_isoformat (d : DateTime) :
    DateTime.fromisoformat d.isoformat = some d := by
  unfold DateTime.isoformat DateTime.fromisoformat
  by_cases hd : d < 0
  · rw [if_pos hd]
    have hdata : (String.mk ('-' :: printNatChars d.natAbs)).data
        = '-' :: printNatChars d.natAbs := rfl
    rw [hdata, stripUtcSuffix_eq_self (by
      intro hmem
      rcases List.mem_cons.mp hmem with h1 | h1
      · exact absurd h1 (by decide)
      · exact plus_not_mem_printNatChars _ h1)]
    simp [parseDigits_printNatChars]
    rw [abs_of_neg hd, neg_neg]
  · rw [if_neg hd]
    have hdata : (String.mk (printNatChars d.toNat)).data
        = printNatChars d.toNat := rfl
    rw [hdata, stripUtcSuffix_eq_self (plus_not_mem_printNatChars _)]
    obtain ⟨c, cs, hccs⟩ :=
      List.exists_cons_of_ne_nil (printNatChars_ne_nil d.toNat)
    rw [hccs]
    have hcne : c ≠ '-' :=
      mem_printNatChars_ne_dash (hccs ▸ List.mem_cons_self c cs)
    simp only [if_neg hcne]
    rw [← hccs, parseDigits_printNatChars]
    simp
    exact not_lt.mp hd

/-! ## Claims -/

/-- C8: serialising a credential with the persistence encoding
    (`AuthToken.to_dict`) and deserialising the result with
    `AuthToken.from_dict` yields a credential whose `access_token`,
    `id_token`, `refresh_token` and `token_type` equal the original's and
    whose `expires_at` equals the original's (the model renders instants
    at second precision, so equality here is second-precision equality). -/
theorem C8_to_dict_from_dict_roundtrip (t : AuthToken) :
    AuthToken.from_dict t.to_dict = .ok t := by
  cases t with
  | mk a i r ty e =>
    simp [AuthToken.from_dict, AuthToken.to_dict, getKey, bind, Except.bind,
      fromisoformat_isoformat]

/-- C2: whenever the in-memory credential has a non-empty refresh token
    and the refresh call returns HTTP 200 with an `AuthenticationResult`
    lacking the `RefreshToken` key, the credential the refresh returns
    carries the pre-refresh credential's `refresh_token` unchanged. -/
theorem C2_refresh_preserves_refresh_token
    (st : MgrState) (tok : AuthToken) (acc idt tt : String) (ei : Int)
    (rest : List ProviderResp) (now : DateTime) (lockOk : Bool)
    (htok : st.token = some tok)
    (hne : tok.refresh_token ≠ "") :
    (refresh_token st
        (.success (some ⟨some acc, some idt, none, some tt, some ei⟩) :: rest)
        now lockOk).result
      = .ok ⟨acc, idt, tok.refresh_token, tt, now + ei - TOKEN_EXPIRY_MARGIN⟩ ∧
    (∀ nt, (refresh_token st
        (.success (some ⟨some acc, some idt, none, some tt, some ei⟩) :: rest)
        now lockOk).result = .ok nt →
      nt.refresh_token = tok.refresh_token) := by
  have h1 : (refresh_token st
      (.success (some ⟨some acc, some idt, none, some tt, some ei⟩) :: rest)
      now lockOk).result
      = .ok ⟨acc, idt, tok.refresh_token, tt, now + ei - TOKEN_EXPIRY_MARGIN⟩ := by
    unfold refresh_token
    simp only [htok]
    rw [if_neg hne]
    cases lockOk <;>
      simp [parse_auth_response, getKey, bind, Except.bind, save_token]
  refine ⟨h1, ?_⟩
  intro nt hnt
  rw [h1] at hnt
  cases hnt
  rfl

/-- C3: when `authenticate` obtains a new credential from the provider
    (here via `force_refresh`, which goes straight to
    `_authenticate_new`) and the token-file lock cannot be acquired
    within its bounded timeout, the failed save is logged and swallowed:
    the call still returns the new in-memory credential, the filesystem
    is left unchanged, and no error is raised by the save step. -/
theorem C3_save_failure_is_nonfatal
    (st : MgrState) (ar : Option AuthResultDict) (rest : List ProviderResp)
    (now : DateTime) (tok : AuthToken)
    (hparse : parse_auth_response ar now = .ok tok) :
    (authenticate st true (.success ar :: rest) now false).result = .ok tok ∧
    (authenticate st true (.success ar :: rest) now false).state.token
        = some tok ∧
    (authenticate st true (.success ar :: rest) now false).state.fs = st.fs ∧
    (authenticate st true (.success ar :: rest) now false).saveFailLogs = 1 := by
  simp [authenticate, authenticate_new, hparse, save_token]

/-- Closed instance of C3: a concrete forced re-authentication whose save
    lock times out still returns the parsed credential. -/
theorem C3_witness :
    parse_auth_response (some ⟨some "a", some "i", some "r", some "B",
        some 3600⟩) 0 = .ok ⟨"a", "i", "r", "B", 3500⟩ ∧
    (authenticate ⟨none, ⟨none, none⟩⟩ true
        [.success (some ⟨some "a", some "i", some "r", some "B", some 3600⟩)]
        0 false).result = .ok ⟨"a", "i", "r", "B", 3500⟩ ∧
    (authenticate ⟨none, ⟨none, none⟩⟩ true
        [.success (some ⟨some "a", some "i", some "r", some "B", some 3600⟩)]
        0 false).saveFailLogs = 1 := by
  refine ⟨by decide, ?_, ?_⟩
  · exact (C3_save_failure_is_nonfatal ⟨none, ⟨none, none⟩⟩
      (some ⟨some "a", some "i", some "r", some "B", some 3600⟩) [] 0
      ⟨"a", "i", "r", "B", 3500⟩ (by decide)).1
  · exact (C3_save_failure_is_nonfatal ⟨none, ⟨none, none⟩⟩
      (some ⟨some "a", some "i", some "r", some "B", some 3600⟩) [] 0
      ⟨"a", "i", "r", "B", 3500⟩ (by decide)).2.2.2

/-- Helper: a password-grant authentication makes exactly one provider
    POST, whatever the response. -/
lemma authenticate_new_grants (st : MgrState) (script : List ProviderResp)
    (now : DateTime) (lockOk : Bool) :
    (authenticate_new st script now lockOk).grants = [Grant.password] := by
  unfold authenticate_new
  cases script with
  | nil => rfl
  | cons r rest =>
    cases r with
    | netFail m => rfl
    | success ar =>
      cases lockOk <;> cases hp : parse_auth_response ar now <;>
        simp [hp, save_token]
    | httpError s e m t =>
      by_cases h4 : s = 400
      · by_cases hna : strContains "NotAuthorizedException" e = true <;>
          simp [h4, hna]
      · simp [h4]

/-- C4: when the provider answers the refresh call with HTTP 400 or 401,
    the manager performs exactly one full password-grant
    re-authentication and no second refresh attempt (the POSTs made are
    exactly one refresh grant followed by one password grant); if that
    re-authentication fails with bad credentials, the invalid-credentials
    error propagates and no further provider call is made. -/
theorem C4_refresh_4xx_single_reauth
    (st : MgrState) (tok : AuthToken) (code : Nat) (et : String)
    (msg : Option String) (txt : String) (rest : List ProviderResp)
    (now : DateTime) (lockOk : Bool)
    (htok : st.token = some tok) (hne : tok.refresh_token ≠ "")
    (hcode : code = 400 ∨ code = 401) :
    (refresh_token st (.httpError code et msg txt :: rest) now lockOk).grants
        = [Grant.refresh, Grant.password] ∧
    (∀ et2 msg2 txt2 rest2,
      rest = .httpError 400 et2 msg2 txt2 :: rest2 →
      strContains "NotAuthorizedException" et2 = true →
      (refresh_token st (.httpError code et msg txt :: rest) now lockOk).result
          = .error (.invalidCredentials "Invalid username or password") ∧
      (refresh_token st (.httpError code et msg txt :: rest) now lockOk).script
          = rest2) := by
  have hrun : refresh_token st (.httpError code et msg txt :: rest) now lockOk
      = { authenticate_new st rest now lockOk with
          grants := Grant.refresh :: (authenticate_new st rest now lockOk).grants } := by
    unfold refresh_token
    simp only [htok]
    rw [if_neg hne]
    rw [if_pos hcode]
  constructor
  · rw [hrun]
    simp [authenticate_new_grants]
  · rintro et2 msg2 txt2 rest2 rfl hna
    rw [hrun]
    unfold authenticate_new
    simp [hna]

/-- Closed instance of C4: a 401 on the refresh call followed by a
    bad-credentials 400 on the password grant gives exactly the POST
    sequence refresh-then-password and an invalid-credentials error with
    no further call. -/
theorem C4_witness :
    ((401 : Nat) = 400 ∨ (401 : Nat) = 401) ∧
    (refresh_token ⟨some ⟨"a", "i", "r", "B", 0⟩, ⟨none, none⟩⟩
        [.httpError 401 "" none "",
         .httpError 400 "NotAuthorizedException" none ""] 7 true).grants
        = [Grant.refresh, Grant.password] ∧
    (refresh_token ⟨some ⟨"a", "i", "r", "B", 0⟩, ⟨none, none⟩⟩
        [.httpError 401 "" none "",
         .httpError 400 "NotAuthorizedException" none ""] 7 true).result
        = .error (.invalidCredentials "Invalid username or password") ∧
    (refresh_token ⟨some ⟨"a", "i", "r", "B", 0⟩, ⟨none, none⟩⟩
        [.httpError 401 "" none "",
         .httpError 400 "NotAuthorizedException" none ""] 7 true).script
        = [] := by
  have h := C4_refresh_4xx_single_reauth
    ⟨some ⟨"a", "i", "r", "B", 0⟩, ⟨none, none⟩⟩ ⟨"a", "i", "r", "B", 0⟩
    401 "" none "" [.httpError 400 "NotAuthorizedException" none ""] 7 true
    rfl (by decide) (Or.inr rfl)
  have h2 := h.2 "NotAuthorizedException" none "" [] rfl (by decide)
  exact ⟨Or.inr rfl, h.1, h2.1, h2.2⟩

/-- C5: `send_command` validates the command against the fixed
    enumeration before any network round-trip: an unrecognised command
    yields `InvalidCommandError` with zero HTTP calls and zero forced
    refreshes, and a recognised command never yields
    `InvalidCommandError`, whatever the scripted API responses. -/
theorem C5_send_command_validation (device_key command : String)
    (script : List CmdResp) :
    (command ∉ AVAILABLE_COMMANDS →
      send_command device_key command script
        = ⟨.error (.invalidCommand ("Invalid command " ++ command)), 0, 0⟩) ∧
    (command ∈ AVAILABLE_COMMANDS →
      ∀ m, (send_command device_key command script).result
          ≠ .error (.invalidCommand m)) := by
  constructor
  · intro h
    unfold send_command
    rw [if_pos h]
  · intro h m
    induction script with
    | nil =>
      unfold send_command
      rw [if_neg (not_not_intro h)]
      simp
    | cons r rest ih =>
      unfold send_command
      rw [if_neg (not_not_intro h)]
      cases r with
      | netFail m2 => simp
      | ok parsed => simp
      | failedDependency d2 => simp
      | status code =>
        by_cases h4 : code = 401
        · subst h4
          simpa using ih
        · by_cases h9 : code = 429 <;> simp [h4, h9]

/-- Closed instance of C5: an unknown command is rejected locally with
    zero HTTP calls, and a known command never raises invalid-command. -/
theorem C5_witness :
    ("FLY" ∉ AVAILABLE_COMMANDS ∧
      send_command "dk" "FLY" [CmdResp.ok none]
        = ⟨.error (.invalidCommand ("Invalid command " ++ "FLY")), 0, 0⟩) ∧
    ("ARM" ∈ AVAILABLE_COMMANDS ∧
      (send_command "dk" "ARM" [CmdResp.status 500]).result
        ≠ .error (.invalidCommand "boom")) :=
  ⟨⟨by decide,
    (C5_send_command_validation "dk" "FLY" [CmdResp.ok none]).1 (by decide)⟩,
   ⟨by decide,
    (C5_send_command_validation "dk" "ARM" [CmdResp.status 500]).2
      (by decide) "boom"⟩⟩

/-- C6: with the primary token file absent and a legacy-format file whose
    `expiry_time` is an epoch number, `_load_token` returns a credential
    whose `is_expired` equals comparing that epoch with the current
    instant; the converted credential is persisted via the save path and
    the legacy file is deleted after the successful load. -/
theorem C6_legacy_epoch_migration
    (fs : FS) (d : LegacyDict) (e : Int) (now : DateTime)
    (hprim : fs.primary = none)
    (hleg : fs.legacy = some (.jsonFile d))
    (hexp : d.expiry_time = some (.num e)) :
    ∃ t : AuthToken,
      (load_token fs now true).result = .ok (some t) ∧
      t.expires_at = e ∧
      t.is_expired now = decide (e ≤ now) ∧
      (load_token fs now true).fs.primary = some (.jsonFile t.to_dict) ∧
      (load_token fs now true).fs.legacy = none := by
  refine ⟨⟨(d.AuthenticationResult.getD LegacyAuthResult.empty).AccessToken.getD "",
    (d.AuthenticationResult.getD LegacyAuthResult.empty).IdToken.getD "",
    (d.AuthenticationResult.getD LegacyAuthResult.empty).RefreshToken.getD "",
    (d.AuthenticationResult.getD LegacyAuthResult.empty).TokenType.getD "Bearer",
    e⟩, ?_, rfl, rfl, ?_, ?_⟩ <;>
  · unfold load_token migrate_legacy_token
    rw [hprim, hleg]
    simp [hexp, fromtimestamp, save_token, bind, Except.bind, pure, Except.pure]

/-- Closed instance of C6: a concrete legacy file with epoch expiry 1000
    loads, converts, persists and deletes the legacy file. -/
theorem C6_witness :
    (FS.mk none (some (.jsonFile ⟨some ⟨some "la", some "li", some "lr",
        some "B"⟩, some (.num 1000), none⟩))).primary = none ∧
    ∃ t : AuthToken,
      (load_token ⟨none, some (.jsonFile ⟨some ⟨some "la", some "li",
          some "lr", some "B"⟩, some (.num 1000), none⟩)⟩ 5 true).result
        = .ok (some t) ∧
      t.expires_at = 1000 ∧
      t.is_expired 5 = decide ((1000 : Int) ≤ 5) ∧
      (load_token ⟨none, some (.jsonFile ⟨some ⟨some "la", some "li",
          some "lr", some "B"⟩, some (.num 1000), none⟩)⟩ 5 true).fs.primary
        = some (.jsonFile t.to_dict) ∧
      (load_token ⟨none, some (.jsonFile ⟨some ⟨some "la", some "li",
          some "lr", some "B"⟩, some (.num 1000), none⟩)⟩ 5 true).fs.legacy
        = none :=
  ⟨rfl, C6_legacy_epoch_migration _ _ 1000 5 rfl rfl rfl⟩

/-- Helper: a 401 response makes one HTTP call, one forced refresh, and
    retries `get_vehicle_status` on the remaining script. -/
lemma get_vehicle_status_cons_401 (vid : String) (rest : List StatusResp) :
    get_vehicle_status vid (.status 401 :: rest)
      = ⟨(get_vehicle_status vid rest).result,
         (get_vehicle_status vid rest).httpCalls + 1,
         (get_vehicle_status vid rest).forcedRefreshes + 1⟩ := rfl

/-- Helper: a 401 response makes one HTTP call, one forced refresh, and
    retries `get_vehicles` on the remaining script. -/
lemma get_vehicles_cons_401 (rest : List VehiclesResp) :
    get_vehicles (.status 401 :: rest)
      = ⟨(get_vehicles rest).result,
         (get_vehicles rest).httpCalls + 1,
         (get_vehicles rest).forcedRefreshes + 1⟩ := rfl

/-- Helper: for a valid command, a 401 response makes one HTTP call, one
    forced refresh, and retries `send_command` on the remaining script. -/
lemma send_command_cons_401 (dk cmd : String) (rest : List CmdResp)
    (h : cmd ∈ AVAILABLE_COMMANDS) :
    send_command dk cmd (.status 401 :: rest)
      = ⟨(send_command dk cmd rest).result,
         (send_command dk cmd rest).httpCalls + 1,
         (send_command dk cmd rest).forcedRefreshes + 1⟩ := by
  conv_lhs => rw [send_command]
  rw [if_neg (not_not_intro h)]
  simp

/-- Helper: `get_vehicle_status` against n consecutive 401 responses
    makes n HTTP calls and n forced refreshes, then fails as a transport
    error once the script is exhausted. -/
lemma get_vehicle_status_all_401 (vid : String) (n : Nat) :
    get_vehicle_status vid (List.replicate n (.status 401))
      = ⟨.error (.networkError "Network error fetching vehicle status"), n, n⟩ := by
  induction n with
  | zero => rfl
  | succ k ih => rw [List.replicate_succ, get_vehicle_status_cons_401, ih]

/-- Helper: `get_vehicles` against n consecutive 401 responses makes n
    HTTP calls and n forced refreshes. -/
lemma get_vehicles_all_401 (n : Nat) :
    get_vehicles (List.replicate n (.status 401))
      = ⟨.error (.networkError "Network error fetching vehicles"), n, n⟩ := by
  induction n with
  | zero => rfl
  | succ k ih => rw [List.replicate_succ, get_vehicles_cons_401, ih]

/-- Helper: `send_command` with a valid command against n consecutive 401
    responses makes n HTTP calls and n forced refreshes. -/
lemma send_command_all_401 (dk cmd : String) (h : cmd ∈ AVAILABLE_COMMANDS)
    (n : Nat) :
    send_command dk cmd (List.replicate n (.status 401))
      = ⟨.error (.networkError "Network error sending command"), n, n⟩ := by
  induction n with
  | zero =>
    unfold send_command
    rw [if_neg (not_not_intro h)]
    rfl
  | succ k ih => rw [List.replicate_succ, send_command_cons_401 dk cmd _ h, ih]

/-- C1 fails as stated: in a run in which every HTTP attempt returns 401,
    `get_vehicle_status` does not stop after two HTTP calls — three
    scripted 401 responses produce three HTTP calls and three forced
    refreshes, with no error until the script is exhausted. -/
theorem C1_counterexample :
    ¬ ((get_vehicle_status "v1"
        [.status 401, .status 401, .status 401]).httpCalls ≤ 2) ∧
    (get_vehicle_status "v1"
        [.status 401, .status 401, .status 401]).httpCalls = 3 ∧
    (get_vehicle_status "v1"
        [.status 401, .status 401, .status 401]).forcedRefreshes = 3 := by
  decide

/-- C1 (amended): on a 401 each operation (`get_vehicles`,
    `get_vehicle_status`, `send_command`) forces a refresh via the
    credential manager and retries the same call recursively with no
    retry bound: n consecutive 401 responses produce n HTTP calls and n
    forced refreshes (not at most two); in the 401-then-200 scenario
    exactly two HTTP calls and one forced refresh occur and the parsed
    200 body is returned. -/
theorem C1_401_unbounded_retry (n : Nat) (vid dk cmd : String)
    (body : VehicleStatusPayload) (vs : VehicleStatus)
    (hcmd : cmd ∈ AVAILABLE_COMMANDS)
    (hparse : VehicleStatus.from_dict body = .ok vs) :
    get_vehicle_status vid (List.replicate n (.status 401))
      = ⟨.error (.networkError "Network error fetching vehicle status"), n, n⟩ ∧
    get_vehicles (List.replicate n (.status 401))
      = ⟨.error (.networkError "Network error fetching vehicles"), n, n⟩ ∧
    send_command dk cmd (List.replicate n (.status 401))
      = ⟨.error (.networkError "Network error sending command"), n, n⟩ ∧
    get_vehicle_status vid [.status 401, .ok body] = ⟨.ok vs, 2, 1⟩ := by
  refine ⟨get_vehicle_status_all_401 vid n, get_vehicles_all_401 n,
    send_command_all_401 dk cmd hcmd n, ?_⟩
  rw [get_vehicle_status_cons_401]
  simp [get_vehicle_status, hparse]

/-- Closed instance of C1 (amended): five 401 responses give five HTTP
    calls on each operation, and 401-then-200 gives two calls, one forced
    refresh and the parsed body. -/
theorem C1_witness :
    "ARM" ∈ AVAILABLE_COMMANDS ∧
    VehicleStatus.from_dict ⟨none, none, none, none, none, none⟩
      = .ok ⟨"", "", false, false, none, none, none, none, none, none,
             none, none, ⟨none, none, none, none, none, none⟩⟩ ∧
    get_vehicle_status "v1" (List.replicate 5 (.status 401))
      = ⟨.error (.networkError "Network error fetching vehicle status"), 5, 5⟩ ∧
    send_command "dk" "ARM" (List.replicate 5 (.status 401))
      = ⟨.error (.networkError "Network error sending command"), 5, 5⟩ ∧
    get_vehicle_status "v1"
        [.status 401, .ok ⟨none, none, none, none, none, none⟩]
      = ⟨.ok ⟨"", "", false, false, none, none, none, none, none, none,
              none, none, ⟨none, none, none, none, none, none⟩⟩, 2, 1⟩ := by
  have h := C1_401_unbounded_retry 5 "v1" "dk" "ARM"
    ⟨none, none, none, none, none, none⟩
    ⟨"", "", false, false, none, none, none, none, none, none,
     none, none, ⟨none, none, none, none, none, none⟩⟩
    (by decide) (by decide)
  exact ⟨by decide, by decide, h.1, h.2.2.1, h.2.2.2⟩

/-- C7 fails as stated: `invalidate_token` clears the in-memory
    credential and removes the primary persisted record, but a
    legacy-format file survives it, and the next `authenticate()`
    migrates and returns the legacy credential with zero provider POSTs —
    it does not go directly to a full password-grant re-authentication. -/
theorem C7_counterexample :
    (invalidate_token ⟨some ⟨"a", "i", "r", "B", 100⟩,
        ⟨some (.jsonFile ⟨some "a", some "i", some "r", some "B",
            some (.str "100")⟩),
         some (.jsonFile ⟨some ⟨some "la", some "li", some "lr", some "B"⟩,
            some (.num 1000), none⟩)⟩⟩).token = none ∧
    (invalidate_token ⟨some ⟨"a", "i", "r", "B", 100⟩,
        ⟨some (.jsonFile ⟨some "a", some "i", some "r", some "B",
            some (.str "100")⟩),
         some (.jsonFile ⟨some ⟨some "la", some "li", some "lr", some "B"⟩,
            some (.num 1000), none⟩)⟩⟩).fs.primary = none ∧
    (authenticate (invalidate_token ⟨some ⟨"a", "i", "r", "B", 100⟩,
        ⟨some (.jsonFile ⟨some "a", some "i", some "r", some "B",
            some (.str "100")⟩),
         some (.jsonFile ⟨some ⟨some "la", some "li", some "lr", some "B"⟩,
            some (.num 1000), none⟩)⟩⟩) false [] 5 true).grants = [] ∧
    (authenticate (invalidate_token ⟨some ⟨"a", "i", "r", "B", 100⟩,
        ⟨some (.jsonFile ⟨some "a", some "i", some "r", some "B",
            some (.str "100")⟩),
         some (.jsonFile ⟨some ⟨some "la", some "li", some "lr", some "B"⟩,
            some (.num 1000), none⟩)⟩⟩) false [] 5 true).result
        = .ok ⟨"la", "li", "lr", "B", 1000⟩ := by
  decide

/-- C7 (amended): `invalidate_token` clears the in-memory credential and
    removes the primary persisted record, leaving any legacy file in
    place; when no legacy file exists, a subsequent `authenticate()`
    behaves exactly as a full password-grant re-authentication (if a
    legacy file exists, it is migrated and used instead). -/
theorem C7_invalidate_then_reauthenticate
    (st : MgrState) (script : List ProviderResp) (now : DateTime)
    (lockOk : Bool) :
    (invalidate_token st).token = none ∧
    (invalidate_token st).fs.primary = none ∧
    (invalidate_token st).fs.legacy = st.fs.legacy ∧
    (st.fs.legacy = none →
      authenticate (invalidate_token st) false script now lockOk
        = authenticate_new (invalidate_token st) script now lockOk) := by
  refine ⟨rfl, rfl, rfl, ?_⟩
  intro hleg
  unfold authenticate
  simp only [Bool.false_eq_true, if_false]
  unfold authenticate_load_phase
  have hload : load_token (invalidate_token st).fs now lockOk
      = ⟨.ok none, (invalidate_token st).fs, 0⟩ := by
    unfold load_token invalidate_token
    simp [hleg]
  rw [hload]
  simp [invalidate_token]

/-- Closed instance of C7 (amended): invalidating a state without a
    legacy file makes the next `authenticate()` a pure password grant. -/
theorem C7_witness :
    (MgrState.mk (some ⟨"a", "i", "r", "B", 100⟩)
        ⟨some (.jsonFile ⟨some "a", some "i", some "r", some "B",
            some (.str "100")⟩), none⟩).fs.legacy = none ∧
    (invalidate_token ⟨some ⟨"a", "i", "r", "B", 100⟩,
        ⟨some (.jsonFile ⟨some "a", some "i", some "r", some "B",
            some (.str "100")⟩), none⟩⟩).token = none ∧
    authenticate (invalidate_token ⟨some ⟨"a", "i", "r", "B", 100⟩,
        ⟨some (.jsonFile ⟨some "a", some "i", some "r", some "B",
            some (.str "100")⟩), none⟩⟩) false
        [.httpError 400 "NotAuthorizedException" none ""] 5 true
      = authenticate_new (invalidate_token ⟨some ⟨"a", "i", "r", "B", 100⟩,
          ⟨some (.jsonFile ⟨some "a", some "i", some "r", some "B",
              some (.str "100")⟩), none⟩⟩)
          [.httpError 400 "NotAuthorizedException" none ""] 5 true := by
  have h := C7_invalidate_then_reauthenticate
    ⟨some ⟨"a", "i", "r", "B", 100⟩,
     ⟨some (.jsonFile ⟨some "a", some "i", some "r", some "B",
         some (.str "100")⟩), none⟩⟩
    [.httpError 400 "NotAuthorizedException" none ""] 5 true
  exact ⟨rfl, h.1, h.2.2.2 rfl⟩

/-- C9 fails as stated: `Location.from_dict` maps an absent (non-boolean)
    `latitude` and `longitude` to `0`, not to an explicit unknown value —
    an empty payload parses to latitude 0 and longitude 0. -/
theorem C9_counterexample :
    Location.from_dict ⟨none, none, none, none⟩
      = .ok ⟨0, 0, none, none⟩ := by
  decide

/-- C9 (amended): absent boolean fields default to false and absent
    optional fields map to `none` in `VehicleStatus.from_dict`,
    `CommandResponse.from_dict` and `VehicleInfo.from_dict`, and
    unparsable timestamps are treated as absent there — with the "Z"
    suffix normalised to "+00:00" only in `VehicleStatus.from_dict`, not
    in `CommandResponse.from_dict`; `Location.from_dict` deviates: absent
    `latitude`/`longitude` map to 0 and an unparsable timestamp raises
    `ValueError` instead of being treated as absent. -/
theorem C9_parser_defaults :
    (∀ (p : CommandPayload) (c k : String),
      (CommandResponse.from_dict p c k).success = p.success.getD false ∧
      (CommandResponse.from_dict p c k).message = p.message.getD "" ∧
      (p.timestamp = none → (CommandResponse.from_dict p c k).timestamp = none) ∧
      (∀ s, p.timestamp = some s → DateTime.fromisoformat s = none →
        (CommandResponse.from_dict p c k).timestamp = none)) ∧
    (∀ d : LocationPayload, d.latitude = none → d.longitude = none →
      d.timestamp = none →
      Location.from_dict d = .ok ⟨0, 0, none, d.accuracy⟩) ∧
    (∀ (d : LocationPayload) (s : String), d.timestamp = some s →
      DateTime.fromisoformat s = none →
      Location.from_dict d = .error (.valueError "Invalid isoformat string")) ∧
    (∀ d : VehicleStatusPayload, d.last_known_state = none → d.location = none →
      VehicleStatus.from_dict d = .ok
        ⟨(getOrKey d.id d.vehicle_id).getD "", d.device_key.getD "",
         false, false, none, none, none, none, none, none, none,
         (if truthyStr d.last_updated then
            DateTime.fromisoformat (replaceZ (d.last_updated.getD ""))
          else none), d⟩) ∧
    (∀ v : VehicleInfoPayload, v.vehicle_make = none → v.make = none →
      (VehicleInfo.from_dict v).make = none) := by
  refine ⟨?_, ?_, ?_, ?_, ?_⟩
  · intro p c k
    refine ⟨rfl, rfl, ?_, ?_⟩
    · intro h
      simp [CommandResponse.from_dict, h]
    · intro s hs hfail
      simp [CommandResponse.from_dict, hs, hfail]
  · intro d hlat hlon hts
    simp [Location.from_dict, hlat, hlon, hts, bind, Except.bind, pure,
      Except.pure]
  · intro d s hts hfail
    simp [Location.from_dict, hts, hfail, bind, Except.bind]
  · intro d hlks hloc
    simp [VehicleStatus.from_dict, hlks, hloc, LksPayload.empty,
      ControllerPayload.empty, pyOrStr, bind, Except.bind, pure, Except.pure]
  · intro v h1 h2
    simp [VehicleInfo.from_dict, h1, h2, getOrKey]

/-- Closed instance of C9 (amended): a "Z"-suffixed timestamp is
    unparsable as such but parses after normalisation, so
    `VehicleStatus.from_dict` keeps it while `CommandResponse.from_dict`
    drops it, and `Location.from_dict` errors on it. -/
theorem C9_witness :
    DateTime.fromisoformat "123Z" = none ∧
    DateTime.fromisoformat (replaceZ "123Z") = some 123 ∧
    (CommandResponse.from_dict ⟨none, none, some "123Z", none⟩ "ARM"
        "dk").timestamp = none ∧
    Location.from_dict ⟨none, none, some "123Z", none⟩
      = .error (.valueError "Invalid isoformat string") ∧
    VehicleStatus.from_dict ⟨none, none, none, none, none, some "123Z"⟩
      = .ok ⟨"", "", false, false, none, none, none, none, none, none,
             none,
             (if truthyStr (some "123Z") then
                DateTime.fromisoformat (replaceZ "123Z")
              else none),
             ⟨none, none, none, none, none, some "123Z"⟩⟩ := by
  have h := C9_parser_defaults
  refine ⟨by decide, by decide, ?_, ?_, ?_⟩
  · exact (h.1 ⟨none, none, some "123Z", none⟩ "ARM" "dk").2.2.2 "123Z" rfl
      (by decide)
  · exact h.2.2.1 ⟨none, none, some "123Z", none⟩ "123Z" rfl (by decide)
  · exact h.2.2.2.1 ⟨none, none, none, none, none, some "123Z"⟩ rfl rfl

/-- C10: for every on-disk state whose stored data cannot be turned into
    a credential — primary token file missing, corrupt, or with
    missing/unparsable/wrongly-typed fields, legacy file absent, corrupt
    or failing migration — `authenticate()` without `force_refresh`
    propagates no exception from the load/migration step: it behaves
    exactly as a full password-grant authentication. -/
theorem C10_load_failures_swallowed
    (st : MgrState) (script : List ProviderResp) (now : DateTime)
    (lockOk : Bool)
    (htok : st.token = none)
    (hbad :
      (st.fs.primary = none ∧
        (st.fs.legacy = none ∨ st.fs.legacy = some .corrupt ∨
          (∃ d exn, st.fs.legacy = some (.jsonFile d) ∧
            migrate_legacy_token d now = .error exn))) ∨
      st.fs.primary = some .corrupt ∨
      (∃ td exn, st.fs.primary = some (.jsonFile td) ∧
        AuthToken.from_dict td = .error exn)) :
    authenticate st false script now lockOk
        = authenticate_new st script now lockOk ∧
    (authenticate st false script now lockOk).grants = [Grant.password] := by
  have hload : (load_token st.fs now lockOk).fs = st.fs ∧
      (load_token st.fs now lockOk).saveFailLogs = 0 ∧
      ∀ t, (load_token st.fs now lockOk).result ≠ .ok (some t) := by
    rcases hbad with ⟨hp, hl | hl | ⟨d, exn, hl, hmig⟩⟩ | hp | ⟨td, exn, hp, hfd⟩
    · unfold load_token; rw [hp, hl]; simp
    · unfold load_token; rw [hp, hl]; simp
    · unfold load_token; rw [hp, hl]; simp [hmig]
    · unfold load_token; rw [hp]; simp
    · unfold load_token; cases exn <;> rw [hp] <;> simp [hfd]
  obtain ⟨hfs, hlogs, hnot⟩ := hload
  have hmain : authenticate st false script now lockOk
      = authenticate_new st script now lockOk := by
    unfold authenticate
    rw [htok]
    simp only [Bool.false_eq_true, if_false]
    unfold authenticate_load_phase
    rcases hres : (load_token st.fs now lockOk).result with e | loaded
    · simp only [hres, hfs, hlogs]
      rw [show { st with fs := st.fs } = st from rfl]
      simp
    · cases loaded with
      | some t => exact absurd hres (hnot t)
      | none =>
        simp only [hres, hfs, hlogs]
        rw [show (⟨none, st.fs⟩ : MgrState) = st from by rw [← htok]]
        simp
  exact ⟨hmain, by rw [hmain]; exact authenticate_new_grants st script now lockOk⟩

/-- Closed instance of C10: a corrupt primary token file is swallowed and
    `authenticate()` becomes a plain password grant. -/
theorem C10_witness :
    (MgrState.mk none ⟨some .corrupt, none⟩).token = none ∧
    authenticate ⟨none, ⟨some .corrupt, none⟩⟩ false
        [.httpError 400 "NotAuthorizedException" none ""] 5 true
      = authenticate_new ⟨none, ⟨some .corrupt, none⟩⟩
          [.httpError 400 "NotAuthorizedException" none ""] 5 true ∧
    (authenticate ⟨none, ⟨some .corrupt, none⟩⟩ false
        [.httpError 400 "NotAuthorizedException" none ""] 5 true).grants
      = [Grant.password] := by
  have h := C10_load_failures_swallowed ⟨none, ⟨some .corrupt, none⟩⟩
    [.httpError 400 "NotAuthorizedException" none ""] 5 true rfl
    (Or.inr (Or.inl rfl))
  exact ⟨rfl, h.1, h.2⟩

/-- Closed instance of C2: a concrete 200 refresh response without a
    `RefreshToken` yields a credential keeping the old refresh token. -/
theorem C2_witness :
    (AuthToken.mk "a" "i" "r" "B" 50).refresh_token ≠ "" ∧
    (refresh_token ⟨some ⟨"a", "i", "r", "B", 50⟩, ⟨none, none⟩⟩
        [.success (some ⟨some "a2", some "i2", none, some "B", some 3600⟩)]
        5 true).result
      = .ok ⟨"a2", "i2", (AuthToken.mk "a" "i" "r" "B" 50).refresh_token, "B",
          5 + 3600 - TOKEN_EXPIRY_MARGIN⟩ :=
  ⟨by decide,
   (C2_refresh_preserves_refresh_token
     ⟨some ⟨"a", "i", "r", "B", 50⟩, ⟨none, none⟩⟩ ⟨"a", "i", "r", "B", 50⟩
     "a2" "i2" "B" 3600 [] 5 true rfl (by decide)).1⟩

end DroneMobile
